import Mathlib

/-!
Verification of the cellmeter edge agent (software/edge/app) against its
natural-language specification.

The session store (`session_manager.py`) persists at most one session record
in a SQLite table whose schema is
`session(id INTEGER PRIMARY KEY CHECK (id = 1), session_id, iccid,
auto_benchmarks, benchmark_in_progress)`.  We embed the table as a list of
rows and each SQL statement as the corresponding list transformation:
`INSERT` fails (IntegrityError, surfaced as HTTP 409) exactly when a row with
`id = 1` is already present, `DELETE ... WHERE id = 1` drops the matching
rows, and the two `UPDATE ... WHERE id = 1 ...` statements rewrite the
matching rows and report the matched-row count (`cursor.rowcount`).
-/

namespace Cellmeter

/-- A row of the `session` table (`setup_database` in `session_manager.py`). -/
structure SessionRow where
  id : Nat
  session_id : String
  iccid : String
  auto_benchmarks : Bool
  benchmark_in_progress : Bool
deriving Repr, DecidableEq

/-- The `session` table, embedded as its list of rows. -/
abbrev SessionTable := List SessionRow

/-- `_get_session_row`: `SELECT * FROM session WHERE id = 1`, first match. -/
def _get_session_row (t : SessionTable) : Option SessionRow :=
  t.find? (fun r => r.id == 1)

/-- `is_session_active`: a session is active when the singleton row exists. -/
def is_session_active (t : SessionTable) : Bool :=
  (_get_session_row t).isSome

/-- `BaseSessionResponse` from `models.py`: all four fields optional,
defaulting to `None`. -/
structure BaseSessionResponse where
  session_id : Option String
  iccid : Option String
  benchmark_in_progress : Option Bool
  auto_benchmarks : Option Bool
deriving Repr, DecidableEq

/-- The all-`None` response produced by `BaseSessionResponse()`. -/
def emptySessionResponse : BaseSessionResponse :=
  ⟨none, none, none, none⟩

/-- `get_session_state`: the row marshalled into a `BaseSessionResponse`,
or the empty response when no row exists. -/
def get_session_state (t : SessionTable) : BaseSessionResponse :=
  match _get_session_row t with
  | some r => ⟨some r.session_id, some r.iccid, some r.benchmark_in_progress,
               some r.auto_benchmarks⟩
  | none => emptySessionResponse

/-- `start_new_session`: `INSERT INTO session VALUES (1, sid, ic, ab, 0)`.
The primary-key constraint makes the insert raise `IntegrityError` exactly
when a row with `id = 1` already exists; the handler re-raises it as
`HTTPException(409)` (modelled as `Except.error 409`) and the transaction
rolls back, leaving the table unchanged.  On success the function returns
`True`. -/
def start_new_session (t : SessionTable) (sid ic : String) (ab : Bool) :
    SessionTable × Except Nat Bool :=
  if t.any (fun r => r.id == 1) then (t, Except.error 409)
  else (t ++ [⟨1, sid, ic, ab, false⟩], Except.ok true)

/-- `end_session`: reads the current state, then
`DELETE FROM session WHERE id = 1`, and returns the pre-deletion state. -/
def end_session (t : SessionTable) : SessionTable × BaseSessionResponse :=
  let state := get_session_state t
  (t.filter (fun r => !(r.id == 1)), state)

/-- `acquire_benchmark_lock`:
`UPDATE session SET benchmark_in_progress = 1
 WHERE id = 1 AND benchmark_in_progress = 0`;
returns `cursor.rowcount > 0`. -/
def acquire_benchmark_lock (t : SessionTable) : SessionTable × Bool :=
  let matched := t.countP (fun r => r.id == 1 && !r.benchmark_in_progress)
  (t.map (fun r =>
      if r.id == 1 && !r.benchmark_in_progress then
        { r with benchmark_in_progress := true }
      else r),
   decide (0 < matched))

/-- `release_benchmark_lock`:
`UPDATE session SET benchmark_in_progress = 0 WHERE id = 1`. -/
def release_benchmark_lock (t : SessionTable) : SessionTable :=
  t.map (fun r =>
    if r.id == 1 then { r with benchmark_in_progress := false } else r)

/-- The `POST /sessions/end` handler in `main.py`: 404 when no session is
active, otherwise `session_manager.end_session()` wrapped in `Ok`. -/
def end_session_endpoint (t : SessionTable) :
    SessionTable × Except Nat BaseSessionResponse :=
  if is_session_active t then
    let p := end_session t
    (p.1, Except.ok p.2)
  else (t, Except.error 404)

/-- The alphabet of session-store operations (C1 ranges over sequences of
these). -/
inductive StoreOp where
  | start (sid ic : String) (ab : Bool)
  | endSession
  | acquire
  | release
  | query
deriving Repr, DecidableEq

/-- Effect of one store operation on the table (queries leave it alone,
a failed `start` rolls back). -/
def applyOp (t : SessionTable) : StoreOp → SessionTable
  | .start sid ic ab => (start_new_session t sid ic ab).1
  | .endSession => (end_session t).1
  | .acquire => (acquire_benchmark_lock t).1
  | .release => release_benchmark_lock t
  | .query => t

/-- The table reached by a sequence of store operations from the empty
table (the state right after `setup_database`). -/
def runOps (ops : List StoreOp) : SessionTable :=
  ops.foldl applyOp []

/-- Well-formedness of the `session` table: at most one row, and every row
has `id = 1` (the CHECK constraint). -/
def TableWF (t : SessionTable) : Prop :=
  t.length ≤ 1 ∧ ∀ r ∈ t, r.id = 1

lemma find?_none_iff_all_false {α : Type} (p : α → Bool) (l : List α) :
    l.find? p = none ↔ ∀ x ∈ l, p x = false := by
  induction l with
  | nil => simp
  | cons a l ih =>
    by_cases h : p a
    · simp [List.find?, h]
    · simp only [List.find?, Bool.eq_false_iff.mpr h, List.mem_cons]
      constructor
      · intro hn x hx
        rcases hx with rfl | hx
        · exact Bool.eq_false_iff.mpr h
        · exact (ih.mp hn) x hx
      · intro hall
        exact ih.mpr (fun x hx => hall x (Or.inr hx))

lemma any_false_iff_all_false {α : Type} (p : α → Bool) (l : List α) :
    l.any p = false ↔ ∀ x ∈ l, p x = false := by
  induction l with
  | nil => simp
  | cons a l ih =>
    rw [List.any_cons, Bool.or_eq_false_iff, ih]
    constructor
    · rintro ⟨ha, hl⟩ x hx
      rcases List.mem_cons.mp hx with rfl | hx
      · exact ha
      · exact hl x hx
    · intro h
      exact ⟨h a (List.mem_cons_self a l),
             fun x hx => h x (List.mem_cons_of_mem a hx)⟩

lemma map_cond_self {α : Type} (p : α → Bool) (f : α → α) (l : List α)
    (h : ∀ x ∈ l, p x = false) :
    l.map (fun x => if p x then f x else x) = l := by
  induction l with
  | nil => rfl
  | cons a l ih =>
    have ha := h a (List.mem_cons_self a l)
    simp [ha, ih (fun x hx => h x (List.mem_cons_of_mem a hx))]

lemma countP_zero_of_all_false {α : Type} (p : α → Bool) (l : List α)
    (h : ∀ x ∈ l, p x = false) : l.countP p = 0 := by
  induction l with
  | nil => rfl
  | cons a l ih =>
    rw [List.countP_cons, h a (List.mem_cons_self a l)]
    simp [ih (fun x hx => h x (List.mem_cons_of_mem a hx))]

lemma applyOp_WF (t : SessionTable) (op : StoreOp) (h : TableWF t) :
    TableWF (applyOp t op) := by
  obtain ⟨hlen, hid⟩ := h
  cases op with
  | start sid ic ab =>
    simp only [applyOp, start_new_session]
    by_cases hac : t.any (fun r => r.id == 1)
    · simpa [hac] using ⟨hlen, hid⟩
    · have hall := (any_false_iff_all_false _ t).mp (Bool.eq_false_iff.mpr hac)
      have ht : t = [] := by
        cases t with
        | nil => rfl
        | cons a l =>
          have h1 := hid a (List.mem_cons_self a l)
          have h2 := hall a (List.mem_cons_self a l)
          rw [h1] at h2
          simp at h2
      subst ht
      simp [TableWF]
  | endSession =>
    refine ⟨le_trans ?_ hlen, ?_⟩
    · simpa [applyOp, end_session] using List.length_filter_le _ t
    · intro r hr
      simp only [applyOp, end_session] at hr
      exact hid r (List.mem_of_mem_filter hr)
  | acquire =>
    refine ⟨?_, ?_⟩
    · simpa [applyOp, acquire_benchmark_lock] using hlen
    · intro r hr
      simp only [applyOp, acquire_benchmark_lock, List.mem_map] at hr
      obtain ⟨s, hs, hmap⟩ := hr
      by_cases hc : (s.id == 1 && !s.benchmark_in_progress)
      · rw [if_pos hc] at hmap
        rw [← hmap]
        exact hid s hs
      · rw [if_neg hc] at hmap
        rw [← hmap]
        exact hid s hs
  | release =>
    refine ⟨?_, ?_⟩
    · simpa [applyOp, release_benchmark_lock] using hlen
    · intro r hr
      simp only [applyOp, release_benchmark_lock, List.mem_map] at hr
      obtain ⟨s, hs, hmap⟩ := hr
      by_cases hc : (s.id == 1)
      · rw [if_pos hc] at hmap
        rw [← hmap]
        exact hid s hs
      · rw [if_neg hc] at hmap
        rw [← hmap]
        exact hid s hs
  | query => exact ⟨hlen, hid⟩

lemma foldl_applyOp_WF (ops : List StoreOp) (t : SessionTable)
    (h : TableWF t) : TableWF (ops.foldl applyOp t) := by
  induction ops generalizing t with
  | nil => exact h
  | cons op ops ih => exact ih (applyOp t op) (applyOp_WF t op h)

/-- C1.  For every sequence of session-store operations starting from the
empty table, the table reached holds at most one session record. -/
theorem at_most_one_session_record (ops : List StoreOp) :
    (runOps ops).length ≤ 1 :=
  (foldl_applyOp_WF ops [] ⟨by simp, by simp⟩).1

lemma is_session_active_eq_any (t : SessionTable) :
    is_session_active t = t.any (fun r => r.id == 1) := by
  induction t with
  | nil => rfl
  | cons a l ih =>
    cases h : (a.id == 1) with
    | true =>
      simp [is_session_active, _get_session_row,
            List.find?_cons_of_pos _ h, h]
    | false =>
      simp only [is_session_active, _get_session_row] at *
      rw [List.find?_cons_of_neg _ (by simp [h]), List.any_cons, h, ih]
      simp

lemma find?_append_none {α : Type} (p : α → Bool) (l₁ l₂ : List α)
    (h : l₁.find? p = none) : (l₁ ++ l₂).find? p = l₂.find? p := by
  induction l₁ with
  | nil => rfl
  | cons a l ih =>
    have hall := (find?_none_iff_all_false p (a :: l)).mp h
    have ha : p a = false := hall a (List.mem_cons_self a l)
    have hl : l.find? p = none :=
      (find?_none_iff_all_false p l).mpr
        (fun x hx => hall x (List.mem_cons_of_mem a hx))
    rw [List.cons_append, List.find?_cons_of_neg _ (by simp [ha]), ih hl]

/-- C2.  `start_new_session` while a record exists fails with 409 and leaves
the table untouched; while no record exists it succeeds and the new record
(with `benchmark_in_progress = false`) is visible through
`get_session_state`. -/
theorem start_session_conflict_or_create (t : SessionTable)
    (sid ic : String) (ab : Bool) :
    (is_session_active t = true →
      start_new_session t sid ic ab = (t, Except.error 409)) ∧
    (is_session_active t = false →
      (start_new_session t sid ic ab).2 = Except.ok true ∧
      get_session_state (start_new_session t sid ic ab).1 =
        ⟨some sid, some ic, some false, some ab⟩) := by
  constructor
  · intro h
    rw [is_session_active_eq_any] at h
    simp [start_new_session, h]
  · intro h
    rw [is_session_active_eq_any] at h
    have hnone : t.find? (fun r => r.id == 1) = none :=
      (find?_none_iff_all_false _ t).mpr
        ((any_false_iff_all_false _ t).mp h)
    constructor
    · simp [start_new_session, h]
    · simp only [start_new_session, h, Bool.false_eq_true, if_false]
      simp [get_session_state, _get_session_row,
            find?_append_none _ _ _ hnone, List.find?]

/-- The second conjunct of C2 exercised at the two scenario inputs: a start
against an occupied table is rejected with 409 and the table is unchanged;
a start against the empty table succeeds. -/
theorem start_session_conflict_or_create_witness :
    start_new_session [⟨1, "flight-A", "8944100000000000001F", true, false⟩]
        "flight-B" "8944100000000000001F" false =
      ([⟨1, "flight-A", "8944100000000000001F", true, false⟩],
       Except.error 409) ∧
    (start_new_session [] "flight-A" "8944100000000000001F" true).2 =
      Except.ok true :=
  ⟨(start_session_conflict_or_create
      [⟨1, "flight-A", "8944100000000000001F", true, false⟩]
      "flight-B" "8944100000000000001F" false).1 (by decide),
   ((start_session_conflict_or_create []
      "flight-A" "8944100000000000001F" true).2 (by decide)).1⟩

lemma find?_filter_not_id (t : SessionTable) :
    (t.filter (fun r => !(r.id == 1))).find? (fun r => r.id == 1) = none := by
  apply (find?_none_iff_all_false _ _).mpr
  intro x hx
  have hmem := List.of_mem_filter hx
  simpa using hmem

/-- C3.  The `POST /sessions/end` handler: while a record exists it deletes
the record, returns the pre-deletion record, and afterwards the state is
empty; while no record exists it returns 404. -/
theorem end_session_prior_record_or_not_found (t : SessionTable) :
    (is_session_active t = true →
      (end_session_endpoint t).2 = Except.ok (get_session_state t) ∧
      is_session_active (end_session_endpoint t).1 = false ∧
      get_session_state (end_session_endpoint t).1 = emptySessionResponse) ∧
    (is_session_active t = false →
      end_session_endpoint t = (t, Except.error 404)) := by
  constructor
  · intro h
    simp only [end_session_endpoint, h, if_true]
    refine ⟨rfl, ?_, ?_⟩
    · simp [is_session_active, _get_session_row, end_session,
            find?_filter_not_id]
    · have hfalse : List.find? (fun _ : SessionRow => false) t = none :=
        (find?_none_iff_all_false _ t).mpr (fun x _ => rfl)
      simp [get_session_state, _get_session_row, end_session,
            find?_filter_not_id, hfalse]
  · intro h
    simp [end_session_endpoint, h]

/-- C3 exercised concretely: ending the one-record table returns that record
and empties the store; ending the empty table returns 404. -/
theorem end_session_prior_record_or_not_found_witness :
    (end_session_endpoint
        [⟨1, "flight-A", "8944100000000000001F", false, false⟩]).2 =
      Except.ok (get_session_state
        [⟨1, "flight-A", "8944100000000000001F", false, false⟩]) ∧
    end_session_endpoint [] = ([], Except.error 404) :=
  ⟨((end_session_prior_record_or_not_found
      [⟨1, "flight-A", "8944100000000000001F", false, false⟩]).1
      (by decide)).1,
   (end_session_prior_record_or_not_found []).2 (by decide)⟩

/-- C4.  `acquire_benchmark_lock` is an atomic compare-and-set of
`benchmark_in_progress`: on a record with the flag down it flips the flag
and returns `true`; on a record with the flag up it returns `false` and
changes nothing; of two consecutive (atomically ordered) acquires exactly
the first succeeds; and after `release_benchmark_lock` an acquire succeeds
again. -/
theorem benchmark_lock_cas (r : SessionRow) (hid : r.id = 1)
    (hb : r.benchmark_in_progress = false) :
    acquire_benchmark_lock [r] =
      ([{ r with benchmark_in_progress := true }], true) ∧
    acquire_benchmark_lock [{ r with benchmark_in_progress := true }] =
      ([{ r with benchmark_in_progress := true }], false) ∧
    (acquire_benchmark_lock (acquire_benchmark_lock [r]).1).2 = false ∧
    acquire_benchmark_lock
        (release_benchmark_lock (acquire_benchmark_lock [r]).1) =
      ([{ r with benchmark_in_progress := true }], true) := by
  refine ⟨?_, ?_, ?_, ?_⟩ <;>
    simp [acquire_benchmark_lock, release_benchmark_lock, hid, hb,
          List.countP_cons]

/-- C4 exercised on a concrete single-record table: the first acquire flips
the flag and succeeds, the second fails, and after a release an acquire
succeeds again. -/
theorem benchmark_lock_cas_witness :
    acquire_benchmark_lock
        [⟨1, "flight-A", "8944100000000000001F", true, false⟩] =
      ([⟨1, "flight-A", "8944100000000000001F", true, true⟩], true) ∧
    (acquire_benchmark_lock
        (acquire_benchmark_lock
          [⟨1, "flight-A", "8944100000000000001F", true, false⟩]).1).2 =
      false :=
  ⟨(benchmark_lock_cas
      ⟨1, "flight-A", "8944100000000000001F", true, false⟩ rfl rfl).1,
   (benchmark_lock_cas
      ⟨1, "flight-A", "8944100000000000001F", true, false⟩ rfl rfl).2.2.1⟩

/-- C10.  With no session record present (`_get_session_row` empty), the
`UPDATE ... WHERE id = 1 AND benchmark_in_progress = 0` matches no row:
`acquire_benchmark_lock` returns `false` and leaves the table unchanged. -/
theorem acquire_lock_without_session (t : SessionTable)
    (h : _get_session_row t = none) :
    acquire_benchmark_lock t = (t, false) := by
  have hall := (find?_none_iff_all_false _ t).mp h
  have hall2 : ∀ x ∈ t, (x.id == 1 && !x.benchmark_in_progress) = false := by
    intro x hx
    rw [show (x.id == 1) = false from hall x hx]
    rfl
  simp only [acquire_benchmark_lock]
  rw [countP_zero_of_all_false _ _ hall2, map_cond_self _ _ _ hall2]
  rfl

/-- C10 exercised at the empty table: the lock cannot be acquired. -/
theorem acquire_lock_without_session_witness :
    acquire_benchmark_lock [] = ([], false) :=
  acquire_lock_without_session [] rfl

/-!
`poller.get_modem_status` (poller.py).  The module-level `API_TOKEN` starts
as the caller-supplied value; `get_teltonika_token` sets it only on a
successful login (a failed login leaves the previous value in place).  The
function then issues the status GET; on HTTP 401 it re-authenticates and
retries by calling itself recursively (`return await get_modem_status()`),
with no retry counter.  We embed one call as a function of the current
token, a stream of login outcomes (`logins i = some tok` when the i-th
login attempt succeeds) and the finite list of responses the router will
give to successive status GETs; when the recursion wants yet another
response beyond that list the embedding stops and reports `exhausted`, so
the number of issued requests on an all-401 list measures the depth of the
recursion. -/

/-- A response of the router to one `GET /api/v1/modems/status` request. -/
inductive ModemResponse where
  | ok
  | unauthorized
  | transportError
deriving Repr, DecidableEq

/-- Outcome of one `get_modem_status` call: whether data was returned,
how many status requests were issued, and whether the embedding ran out of
scripted responses (i.e. the recursion outlived the script). -/
structure ModemCallResult where
  gotData : Bool
  requests : Nat
  exhausted : Bool
deriving Repr, DecidableEq

/-- The authenticated tail of `get_modem_status` (the token is present
here, because after a 401 the stale token is kept when the re-login fails):
issue the GET; `ok` parses and returns data, a transport error is caught
and returns no data, and a 401 performs one login attempt (keeping the
stale token on failure, since `get_teltonika_token` only overwrites
`API_TOKEN` on success) and then retries by recursion with no counter. -/
def modem_status_request (logins : Nat → Option String) :
    String → Nat → List ModemResponse → Nat → ModemCallResult
  | _, _, [], reqs => ⟨false, reqs, true⟩
  | _, _, .ok :: _, reqs => ⟨true, reqs + 1, false⟩
  | _, _, .transportError :: _, reqs => ⟨false, reqs + 1, false⟩
  | tok, li, .unauthorized :: rest, reqs =>
    match logins li with
    | some t => modem_status_request logins t (li + 1) rest (reqs + 1)
    | none => modem_status_request logins tok (li + 1) rest (reqs + 1)

/-- `get_modem_status`: if `API_TOKEN` is absent, attempt one login; if it
still is absent, return no data; otherwise proceed to the authenticated
request (whose 401 handling recurses as `modem_status_request`). -/
def get_modem_status (logins : Nat → Option String)
    (token : Option String) (li : Nat) (rs : List ModemResponse)
    (reqs : Nat) : ModemCallResult :=
  match token with
  | some t => modem_status_request logins t li rs reqs
  | none =>
    match logins li with
    | some t => modem_status_request logins t (li + 1) rs reqs
    | none => ⟨false, reqs, false⟩

lemma modem_status_request_all_unauthorized (logins : Nat → Option String)
    (tok : String) :
    ∀ (k : Nat) (li reqs : Nat),
      modem_status_request logins tok li
        (List.replicate k ModemResponse.unauthorized) reqs =
      ⟨false, reqs + k, true⟩ := by
  intro k
  induction k generalizing tok with
  | zero => intro li reqs; rfl
  | succ k ih =>
    intro li reqs
    rw [List.replicate_succ]
    show (match logins li with
          | some t =>
            modem_status_request logins t (li + 1)
              (List.replicate k ModemResponse.unauthorized) (reqs + 1)
          | none =>
            modem_status_request logins tok (li + 1)
              (List.replicate k ModemResponse.unauthorized) (reqs + 1)) =
      ⟨false, reqs + (k + 1), true⟩
    cases hl : logins li with
    | some t =>
      dsimp only
      rw [ih t (li + 1) (reqs + 1)]
      simp [Nat.add_assoc, Nat.add_comm 1 k]
    | none =>
      dsimp only
      rw [ih tok (li + 1) (reqs + 1)]
      simp [Nat.add_assoc, Nat.add_comm 1 k]

lemma get_modem_status_all_unauthorized (logins : Nat → Option String)
    (tok : String) (k li reqs : Nat) :
    get_modem_status logins (some tok) li
      (List.replicate k ModemResponse.unauthorized) reqs =
    ⟨false, reqs + k, true⟩ :=
  modem_status_request_all_unauthorized logins tok k li reqs

/-- C5.  On repeated authorization failures `get_modem_status` does NOT stop
after one retry: against a script of `k` consecutive 401 responses (every
re-login succeeding) it issues `k` status requests — one per 401, each
recursion level re-authenticating and retrying — and is still recursing when
the script runs out.  In particular three consecutive 401s already cost
three requests, i.e. a second retry, contradicting the single-retry bound
(and the code's own `# Retry once` comment). -/
theorem modem_status_retries_unbounded :
    (∀ k : Nat,
      (get_modem_status (fun i => some (toString i)) (some "tok0") 0
        (List.replicate k ModemResponse.unauthorized) 0).requests = k) ∧
    get_modem_status (fun i => some (toString i)) (some "tok0") 0
      [ModemResponse.unauthorized, ModemResponse.unauthorized,
       ModemResponse.unauthorized] 0 =
      ⟨false, 3, true⟩ := by
  constructor
  · intro k
    rw [get_modem_status_all_unauthorized (fun i => some (toString i))
          "tok0" k 0 0]
    simp
  · have h := get_modem_status_all_unauthorized
      (fun i => some (toString i)) "tok0" 3 0 0
    simpa using h

/-!
`poller.run_teltonika_speedtest`, step 2 (the status-poll loop).  After the
start request succeeds (or reports 409), the loop
`for _ in range(120): sleep(1); poll status` runs at most 120 iterations.
Its two Python locals `download_mbps` and `upload_mbps` are never
initialised before the loop; they are only assigned inside the
`TESTING_DOWNLOAD` / `TESTING_UPLOAD` branches (and only when the reported
speed is positive) and in the `FINISHED` branch.  We embed each local as an
`Option ℚ` where `none` means *unbound*: the code never assigns the Python
value `None` to either local, so after the loop, evaluating
`download_mbps is not None` (or building the result from `upload_mbps`)
raises `UnboundLocalError` exactly when the corresponding `Option` is
`none`. -/

/-- One payload of `GET /api/speedtest/status` as the code reads it:
`str(data["data"]["state"]).upper()` (we take the state already
upper-cased) and the two `int(... .get("avg...Speed", 0))` counters. -/
structure SpeedtestStatus where
  state : String
  avgDownloadSpeed : Int
  avgUploadSpeed : Int
deriving Repr, DecidableEq

/-- How one `run_teltonika_speedtest` call can end. -/
inductive SpeedtestOutcome where
  | result (download_mbps upload_mbps : ℚ)
  | noResult
  | unboundLocalError
deriving Repr, DecidableEq

/-- The poll loop: at fuel 0 the `for` budget is exhausted (the `else`
clause logs a timeout and falls through); otherwise one status is consumed
and dispatched exactly as the `if/elif` chain does, `NOT_RUNNING` and
`FINISHED` breaking out of the loop.  Returns the two locals and the
number of polls performed. -/
def speedtest_poll (statuses : Nat → SpeedtestStatus) :
    Nat → Nat → Option ℚ → Option ℚ → Option ℚ × Option ℚ × Nat
  | 0, polls, db, ub => (db, ub, polls)
  | fuel + 1, polls, db, ub =>
    let s := statuses polls
    if s.state = "TESTING_DOWNLOAD" then
      let cd : ℚ := (s.avgDownloadSpeed : ℚ) / 1000000
      speedtest_poll statuses fuel (polls + 1)
        (if 0 < cd then some cd else db) ub
    else if s.state = "TESTING_UPLOAD" then
      let cu : ℚ := (s.avgUploadSpeed : ℚ) / 1000000
      speedtest_poll statuses fuel (polls + 1) db
        (if 0 < cu then some cu else ub)
    else if s.state = "NOT_RUNNING" then (db, ub, polls + 1)
    else if s.state = "FINISHED" then
      (some ((s.avgDownloadSpeed : ℚ) / 1000000),
       some ((s.avgUploadSpeed : ℚ) / 1000000), polls + 1)
    else speedtest_poll statuses fuel (polls + 1) db ub

/-- Step 3 of `run_teltonika_speedtest`: with both locals bound the guard
passes and a `SpeedtestResult` is built; with either local unbound, the
first evaluation of that local (in the guard for `download_mbps`, in the
constructor call for `upload_mbps`) raises `UnboundLocalError`.  The
`return None` branch would need a local bound to Python `None`, which no
assignment in the loop can produce. -/
def run_teltonika_speedtest (statuses : Nat → SpeedtestStatus) :
    SpeedtestOutcome × Nat :=
  let r := speedtest_poll statuses 120 0 none none
  (match r.1, r.2.1 with
   | some d, some u => SpeedtestOutcome.result d u
   | _, _ => SpeedtestOutcome.unboundLocalError,
   r.2.2)

lemma speedtest_poll_bound (statuses : Nat → SpeedtestStatus) :
    ∀ (fuel polls : Nat) (db ub : Option ℚ),
      (speedtest_poll statuses fuel polls db ub).2.2 ≤ polls + fuel := by
  intro fuel
  induction fuel with
  | zero => intro polls db ub; simp [speedtest_poll]
  | succ fuel ih =>
    intro polls db ub
    simp only [speedtest_poll]
    split_ifs with h1 h2 h3 h4 <;>
      first
        | exact le_trans (ih (polls + 1) _ _)
            (show polls + 1 + fuel ≤ polls + (fuel + 1) by omega)
        | exact (show polls + 1 ≤ polls + (fuel + 1) by omega)

lemma speedtest_poll_preparing (fuel : Nat) :
    ∀ polls : Nat,
      speedtest_poll (fun _ => ⟨"PREPARING", 0, 0⟩) fuel polls none none =
      (none, none, polls + fuel) := by
  induction fuel with
  | zero => intro polls; simp [speedtest_poll]
  | succ fuel ih =>
    intro polls
    simp only [speedtest_poll]
    norm_num
    rw [ih (polls + 1)]
    simp [Nat.add_assoc, Nat.add_comm 1 fuel]

/-- C6.  The poll loop is bounded: for every status stream it performs at
most 120 polls.  But on a stream that never reaches a terminal state (here
120 unrecognised `"PREPARING"` payloads, each treated as "keep polling"),
after the budget is exhausted the code does NOT return `None`: both result
locals are still unbound and the results check raises
`UnboundLocalError`. -/
theorem speedtest_budget_exhaustion_crashes :
    run_teltonika_speedtest (fun _ => ⟨"PREPARING", 0, 0⟩) =
      (SpeedtestOutcome.unboundLocalError, 120) ∧
    (∀ statuses : Nat → SpeedtestStatus,
      (run_teltonika_speedtest statuses).2 ≤ 120) := by
  constructor
  · simp only [run_teltonika_speedtest]
    rw [speedtest_poll_preparing 120 0]
  · intro statuses
    have h := speedtest_poll_bound statuses 120 0 none none
    simpa [run_teltonika_speedtest] using h

/-!
`main.high_frequency_polling_loop`.  Each iteration: check
`is_session_active()`, fetch modem status, and when data came back call
`db_client.write_state_metrics(state.session_id, state.iccid, modem_data)`.
That call passes 3 positional arguments, but the definition of
`write_state_metrics` in `db_client.py` takes 5 required positional
parameters (`session_id, iccid, teltonika_data, gps_data, baro_data`, none
with a default), so Python raises `TypeError` at the call site, which
propagates out of the loop.  We embed the session-activity checks and fetch
outcomes as boolean streams indexed by iteration, and the Python calling
convention as the comparison of argument and parameter counts. -/

/-- Number of required positional parameters of
`db_client.write_state_metrics`. -/
def write_state_metrics_params : Nat := 5

/-- Number of positional arguments `high_frequency_polling_loop` passes to
`write_state_metrics`. -/
def hf_write_call_args : Nat := 3

/-- How the high-frequency loop can end. -/
inductive HfLoopExit where
  | sessionInactive (iterations : Nat)
  | typeError (iterations : Nat)
  | outOfFuel
deriving Repr, DecidableEq

/-- The `while is_session_active()` loop: on an active iteration, fetch; a
failed fetch (`None`) is skipped and the loop continues after the pacing
sleep; a successful fetch reaches the `write_state_metrics` call, which is
valid only if the argument count matches the parameter count — otherwise
the `TypeError` escapes the loop. -/
def high_frequency_polling_loop (active fetchSucceeds : Nat → Bool) :
    Nat → Nat → HfLoopExit
  | 0, _ => .outOfFuel
  | fuel + 1, i =>
    if active i then
      if fetchSucceeds i then
        if hf_write_call_args == write_state_metrics_params then
          high_frequency_polling_loop active fetchSucceeds fuel (i + 1)
        else .typeError i
      else high_frequency_polling_loop active fetchSucceeds fuel (i + 1)
    else .sessionInactive i

lemma hf_loop_all_failed_fetch (k : Nat) :
    ∀ (fuel i : Nat), i ≤ k → k - i < fuel →
      high_frequency_polling_loop (fun m => decide (m < k)) (fun _ => false)
        fuel i = HfLoopExit.sessionInactive k := by
  intro fuel
  induction fuel with
  | zero => intro i h1 h2; omega
  | succ fuel ih =>
    intro i h1 h2
    by_cases hik : i < k
    · simp only [high_frequency_polling_loop, decide_eq_true_eq, hik,
                 if_true, Bool.false_eq_true, if_false]
      exact ih (i + 1) (by omega) (by omega)
    · have hk : i = k := by omega
      subst hk
      simp [high_frequency_polling_loop, hik]

/-- C7.  Failed radio-state fetches never terminate the high-frequency
loop: with every fetch failing, the loop runs until the session becomes
inactive (at iteration `k`) and exits through the `is_session_active`
check.  But when a fetch SUCCEEDS while the session is active, the loop
does not continue: the 3-argument call to the 5-parameter
`write_state_metrics` raises `TypeError` on that very iteration, killing
the loop while the session is still active. -/
theorem hf_loop_survives_failed_fetch_but_not_success :
    (∀ k fuel : Nat, k < fuel →
      high_frequency_polling_loop (fun m => decide (m < k)) (fun _ => false)
        fuel 0 = HfLoopExit.sessionInactive k) ∧
    high_frequency_polling_loop (fun _ => true) (fun _ => true) 5 0 =
      HfLoopExit.typeError 0 := by
  constructor
  · intro k fuel h
    exact hf_loop_all_failed_fetch k fuel 0 (Nat.zero_le k) (by omega)
  · rfl

/-- C7 exercised concretely: every fetch failing, session active for 3
iterations, fuel 10 — the loop exits through the inactivity check after
exactly those 3 iterations. -/
theorem hf_loop_survives_failed_fetch_witness :
    high_frequency_polling_loop (fun m => decide (m < 3)) (fun _ => false)
      10 0 = HfLoopExit.sessionInactive 3 :=
  hf_loop_survives_failed_fetch_but_not_success.1 3 10 (by omega)

/-!
`db_client.write_performance_benchmark`.  The probe result models
(`PingResult`, `Iperf3Result`, `SpeedtestResult` in `models.py`) are flat
records of nullable numbers; `model_dump()` yields their field dictionary
in declaration order.  The function adds to the InfluxDB point only the
fields whose value is not `None`, and writes the point only when
`len(point._fields) != 0`. -/

/-- `PingResult` from `models.py`. -/
structure PingResult where
  rtt_avg_ms : Option ℚ
  packet_loss_pct : Option ℚ
deriving Repr, DecidableEq

/-- `Iperf3Result` from `models.py`. -/
structure Iperf3Result where
  upload_mbps : Option ℚ
  download_mbps : Option ℚ
  jitter_ms : Option ℚ
deriving Repr, DecidableEq

/-- `SpeedtestResult` from `models.py`. -/
structure SpeedtestResult where
  upload_mbps : Option ℚ
  download_mbps : Option ℚ
deriving Repr, DecidableEq

/-- The `data: PingResult | Iperf3Result | SpeedtestResult` union accepted
by `write_performance_benchmark`. -/
inductive ProbeData where
  | ping (r : PingResult)
  | iperf3 (r : Iperf3Result)
  | speedtest (r : SpeedtestResult)
deriving Repr, DecidableEq

/-- `data.model_dump().items()` in field-declaration order. -/
def model_dump : ProbeData → List (String × Option ℚ)
  | .ping r => [("rtt_avg_ms", r.rtt_avg_ms),
                ("packet_loss_pct", r.packet_loss_pct)]
  | .iperf3 r => [("upload_mbps", r.upload_mbps),
                  ("download_mbps", r.download_mbps),
                  ("jitter_ms", r.jitter_ms)]
  | .speedtest r => [("upload_mbps", r.upload_mbps),
                     ("download_mbps", r.download_mbps)]

/-- The loop `for field, value in ...: if value is not None: point.field`,
i.e. the non-null fields in order. -/
def nonNullFields (l : List (String × Option ℚ)) : List (String × ℚ) :=
  l.filterMap (fun kv =>
    match kv.2 with
    | some v => some (kv.1, v)
    | none => none)

/-- `write_performance_benchmark`: the point is written
(`some` of its field list) exactly when `len(point._fields) != 0`;
otherwise nothing is sent to the sink (`none`). -/
def write_performance_benchmark (d : ProbeData) : Option (List (String × ℚ)) :=
  let fields := nonNullFields (model_dump d)
  if fields.length ≠ 0 then some fields else none

lemma nonNullFields_pos_iff (l : List (String × Option ℚ)) :
    0 < (nonNullFields l).length ↔
      l.any (fun kv => kv.2.isSome) = true := by
  induction l with
  | nil => simp [nonNullFields]
  | cons a l ih =>
    cases h : a.2 with
    | none =>
      simp only [nonNullFields, List.filterMap_cons, h, List.any_cons,
                 Option.isSome_none, Bool.false_or] at *
      exact ih
    | some v =>
      simp [nonNullFields, List.filterMap_cons, h]

/-- C8.  A probe result is forwarded to the metrics sink if and only if at
least one of its fields is non-null, and then exactly the non-null fields
are written; in particular an all-null `Iperf3Result` is discarded, and one
with only `upload_mbps = 12.3` is forwarded with just that field. -/
theorem benchmark_forwarded_iff_nonnull_field (d : ProbeData) :
    write_performance_benchmark d =
      (if (model_dump d).any (fun kv => kv.2.isSome) then
        some (nonNullFields (model_dump d))
      else none) ∧
    write_performance_benchmark (.iperf3 ⟨none, none, none⟩) = none ∧
    write_performance_benchmark (.iperf3 ⟨some (123/10), none, none⟩) =
      some [("upload_mbps", (123/10 : ℚ))] := by
  refine ⟨?_, rfl, rfl⟩
  by_cases h : (model_dump d).any (fun kv => kv.2.isSome) = true
  · have hl := (nonNullFields_pos_iff (model_dump d)).mpr h
    simp only [write_performance_benchmark, h, if_true]
    rw [if_pos (by omega)]
  · have hb : (model_dump d).any (fun kv => kv.2.isSome) = false :=
      Bool.eq_false_iff.mpr h
    have hl : (nonNullFields (model_dump d)).length = 0 := by
      by_contra hc
      exact h ((nonNullFields_pos_iff (model_dump d)).mp (by omega))
    simp only [write_performance_benchmark, hb, Bool.false_eq_true, if_false]
    rw [if_neg (by omega)]

/-!
`poller.run_ssh_iperf3`.  The three SSH sub-invocations (upload, download,
jitter) each yield either no output (`execute_command` returned `None` or
empty), or output that parses to a number, or output whose
`json.loads(...)[...]` chain raises.  All three parses sit in ONE `try`
block; the `except` logs and does `return None`. -/

/-- Outcome of one iperf3 sub-invocation, as the parsing code sees it. -/
inductive SubOutput where
  | absent
  | good (v : ℚ)
  | malformed
deriving Repr, DecidableEq

/-- The field a sub-invocation contributes when the whole `try` block
survives: absent output contributes nothing (field stays null). -/
def parsedVal : SubOutput → Option ℚ
  | .absent => none
  | .good v => some v
  | .malformed => none

/-- `run_ssh_iperf3`: the upload, download and jitter outputs are parsed in
that order inside a single `try`; the first malformed output raises, the
handler returns `None`, and otherwise the collected fields are validated
into an `Iperf3Result` (missing ones defaulting to null). -/
def run_ssh_iperf3 (upload download jitter : SubOutput) :
    Option Iperf3Result :=
  match upload with
  | .malformed => none
  | _ =>
    match download with
    | .malformed => none
    | _ =>
      match jitter with
      | .malformed => none
      | _ => some ⟨parsedVal upload, parsedVal download, parsedVal jitter⟩

/-- C9 counterexample.  Upload parses to 10 Mbps and jitter to 2 ms, but
the download output is malformed: the claim requires the probe to return a
result carrying the two successfully parsed fields with only
`download_mbps` null, yet the code returns no result at all — the shared
exception handler discards the successful fields too. -/
theorem iperf3_parse_error_drops_successful_fields :
    run_ssh_iperf3 (SubOutput.good 10) SubOutput.malformed
      (SubOutput.good 2) = none ∧
    (run_ssh_iperf3 (SubOutput.good 10) SubOutput.malformed
      (SubOutput.good 2)).isSome = false :=
  ⟨rfl, rfl⟩

/-- C9 as amended.  Sub-invocations that are merely ABSENT are independent:
when no output is malformed, each absent sub-invocation leaves only its own
field null and the parsed fields of the others are returned.  But any
malformed output aborts the whole probe: the result is `none` and even
successfully parsed fields are dropped. -/
theorem iperf3_absent_independent_malformed_fatal
    (upload download jitter : SubOutput) :
    (upload ≠ SubOutput.malformed → download ≠ SubOutput.malformed →
     jitter ≠ SubOutput.malformed →
      run_ssh_iperf3 upload download jitter =
        some ⟨parsedVal upload, parsedVal download, parsedVal jitter⟩) ∧
    ((upload = SubOutput.malformed ∨ download = SubOutput.malformed ∨
      jitter = SubOutput.malformed) →
      run_ssh_iperf3 upload download jitter = none) := by
  constructor
  · intro h1 h2 h3
    cases upload <;> cases download <;> cases jitter <;>
      simp_all [run_ssh_iperf3]
  · intro h
    cases upload <;> cases download <;> cases jitter <;>
      simp_all [run_ssh_iperf3]

/-- C9 (amended) exercised concretely: with upload 12.3 Mbps, download
absent and jitter 2 ms, the probe returns exactly the two parsed fields
with the absent one null; with a malformed upload it returns nothing. -/
theorem iperf3_absent_independent_malformed_fatal_witness :
    run_ssh_iperf3 (SubOutput.good (123/10)) SubOutput.absent
      (SubOutput.good 2) = some ⟨some (123/10), none, some 2⟩ ∧
    run_ssh_iperf3 SubOutput.malformed SubOutput.absent SubOutput.absent =
      none :=
  ⟨(iperf3_absent_independent_malformed_fatal
      (SubOutput.good (123/10)) SubOutput.absent (SubOutput.good 2)).1
      (by simp) (by simp) (by simp),
   (iperf3_absent_independent_malformed_fatal
      SubOutput.malformed SubOutput.absent SubOutput.absent).2
      (Or.inl rfl)⟩

end Cellmeter
